import Mathlib

/-!
Verification of the DisplaySnap multi-monitor configuration engine.

The definitions below are a shallow embedding of the Python sources
`monitor_api.py`, `window_manager.py` and `profile_manager.py`.
OS calls (device enumeration, staging a display change, window placement,
file reads) are modelled as oracles packaged in explicit environment
structures; the control flow, bookkeeping and arithmetic of the Python
functions are translated line by line.
-/

namespace DisplaySnap

/-- Monitor specification, mirroring the `MonitorInfo` dataclass of
`monitor_api.py` (fields irrelevant to control flow keep defaults). -/
structure MonitorInfo where
  device_name : String
  device_string : String := ""
  width : Int := 0
  height : Int := 0
  position_x : Int := 0
  position_y : Int := 0
  refresh_rate : Int := 0
  orientation : Int := 0
  bits_per_pixel : Int := 32
  is_primary : Bool := false
  is_active : Bool := true
  enabled : Bool := true
deriving Repr, DecidableEq

/-- Entries of the four outcome lists of `ApplyResult`.  The Python code
stores strings; the decorated variants correspond to the f-string
decorations used at the respective append sites, and `Entry.render`
reproduces the exact string the Python code stores. -/
inductive Entry where
  | plain (d : String)
  | primaryProtected (d : String)
  | failedEnable (d : String)
  | reEnabled (d : String)
deriving Repr, DecidableEq

/-- Device identity an outcome entry refers to. -/
def Entry.device : Entry → String
  | .plain d => d
  | .primaryProtected d => d
  | .failedEnable d => d
  | .reEnabled d => d

/-- Exact string stored by the Python code for each outcome entry. -/
def Entry.render : Entry → String
  | .plain d => d
  | .primaryProtected d => d ++ " (primary cannot be disabled)"
  | .failedEnable d => d ++ " (failed to enable)"
  | .reEnabled d => d ++ " (re-enabled)"

/-- Result record of `apply_monitor_settings` (`ApplyResult` in
`monitor_api.py`). -/
structure ApplyResult where
  success : Bool := true
  applied : List Entry := []
  skipped : List Entry := []
  failed : List Entry := []
  disabled : List Entry := []
deriving Repr, DecidableEq

/-- Reconciliation state: the `ApplyResult` being built plus a ghost trace
`detached` of the devices for which `disable_monitor` was invoked
(a staged detach attempt, successful or not). -/
structure ApplyState where
  res : ApplyResult := {}
  detached : List String := []
deriving Repr, DecidableEq

/-- Live display environment seen by `apply_monitor_settings`: the device
enumerations before (`connected0`/`allDevices0`) and after
(`connected1`/`allDevices1`) a potential `detect_displays` call, the set of
devices carrying the primary flag, and oracles for the outcome of each OS
mutation (`disable_monitor`, `enable_monitor`, reading current settings,
staging a settings change, and the final global commit). -/
structure DisplayEnv where
  connected0 : List String
  allDevices0 : List String
  connected1 : List String
  allDevices1 : List String
  primary : List String
  disableOk : String → Bool
  enableOk : String → Bool
  enumOk : String → Bool
  changeOk : String → Bool
  commitOk : Bool

/-- Condition triggering the lazy `detect_displays()` call: some desired
spec is enabled, currently not connected, but known to the OS. -/
def needsReenable (env : DisplayEnv) (monitors : List MonitorInfo) : Bool :=
  monitors.any fun m =>
    m.enabled && !(env.connected0.contains m.device_name) &&
      env.allDevices0.contains m.device_name

/-- Connected-device set effectively used by the pass (re-queried when
`detect_displays` ran). -/
def effConnected (env : DisplayEnv) (monitors : List MonitorInfo) : List String :=
  if needsReenable env monitors then env.connected1 else env.connected0

/-- All-device set effectively used by the pass. -/
def effAll (env : DisplayEnv) (monitors : List MonitorInfo) : List String :=
  if needsReenable env monitors then env.allDevices1 else env.allDevices0

/-- One step of the first loop of `apply_monitor_settings` (disable
monitors marked disabled in the profile). -/
def disablePassStep (env : DisplayEnv) (connected allDevices : List String)
    (s : ApplyState) (m : MonitorInfo) : ApplyState :=
  if !(allDevices.contains m.device_name) then
    { s with res := { s.res with skipped := s.res.skipped ++ [.plain m.device_name] } }
  else if m.enabled then s
  else if !(connected.contains m.device_name) then
    { s with res := { s.res with disabled := s.res.disabled ++ [.plain m.device_name] } }
  else if env.primary.contains m.device_name then
    { s with res := { s.res with failed := s.res.failed ++ [.primaryProtected m.device_name] } }
  else if env.disableOk m.device_name then
    { s with res := { s.res with disabled := s.res.disabled ++ [.plain m.device_name] },
             detached := s.detached ++ [m.device_name] }
  else
    { s with res := { s.res with failed := s.res.failed ++ [.plain m.device_name],
                                 success := false },
             detached := s.detached ++ [m.device_name] }

/-- One step of the second loop (disable extra connected monitors not in
the profile, `disable_extra = True` only). -/
def extraDisableStep (env : DisplayEnv) (profileNames : List String)
    (s : ApplyState) (d : String) : ApplyState :=
  if profileNames.contains d then s
  else if env.primary.contains d then s
  else if env.disableOk d then
    { s with res := { s.res with disabled := s.res.disabled ++ [.plain d] },
             detached := s.detached ++ [d] }
  else
    { s with detached := s.detached ++ [d] }

/-- One step of the third loop (configure enabled monitors, re-enabling
currently detached ones). -/
def configureStep (env : DisplayEnv) (connected allDevices : List String)
    (s : ApplyState) (m : MonitorInfo) : ApplyState :=
  if !(allDevices.contains m.device_name) then s
  else if !m.enabled then s
  else if !(connected.contains m.device_name) then
    if env.enableOk m.device_name then
      { s with res := { s.res with applied := s.res.applied ++ [.reEnabled m.device_name] } }
    else
      { s with res := { s.res with failed := s.res.failed ++ [.failedEnable m.device_name],
                                   success := false } }
  else if !(env.enumOk m.device_name) then
    if s.res.skipped.contains (.plain m.device_name) then s
    else { s with res := { s.res with skipped := s.res.skipped ++ [.plain m.device_name] } }
  else if env.changeOk m.device_name then
    { s with res := { s.res with applied := s.res.applied ++ [.plain m.device_name] } }
  else
    { s with res := { s.res with failed := s.res.failed ++ [.plain m.device_name],
                                 success := false } }

/-- The three staging loops of `apply_monitor_settings` (monitor_api.py,
lines 462-553): disable pass, optional extra-disable pass, and the
configure/re-enable pass, run after the lazy detect decision. -/
def stagePasses (env : DisplayEnv) (monitors : List MonitorInfo)
    (disable_extra : Bool) : ApplyState :=
  let connected := effConnected env monitors
  let allDevices := effAll env monitors
  let profileNames := monitors.map (·.device_name)
  let s1 := monitors.foldl (disablePassStep env connected allDevices) {}
  let s2 := if disable_extra then connected.foldl (extraDisableStep env profileNames) s1 else s1
  monitors.foldl (configureStep env connected allDevices) s2

/-- Shallow embedding of `apply_monitor_settings` (monitor_api.py,
lines 415-561): the staging passes followed by the final global commit
(attempted only when something was applied or disabled; a failing commit
clears the success flag). -/
def applyMonitorSettings (env : DisplayEnv) (monitors : List MonitorInfo)
    (disable_extra : Bool) : ApplyState :=
  let s3 := stagePasses env monitors disable_extra
  if s3.res.applied.isEmpty && s3.res.disabled.isEmpty then s3
  else if env.commitOk then s3
  else { s3 with res := { s3.res with success := false } }

/-! ### Per-monitor contributions of each reconciliation phase

Each loop body appends entries whose presence depends only on the
environment and the monitor being processed (the one exception is the
deduplication test on `skipped` in the configure pass, handled separately
below).  The contribution functions below mirror the branch structure of
the corresponding step functions exactly. -/

/-- Entry the disable pass appends to `skipped` for monitor `m`. -/
def contrib1skipped (allDevices : List String) (m : MonitorInfo) : Option Entry :=
  if !(allDevices.contains m.device_name) then some (.plain m.device_name) else none

/-- Entry the disable pass appends to `disabled` for monitor `m`. -/
def contrib1disabled (env : DisplayEnv) (connected allDevices : List String)
    (m : MonitorInfo) : Option Entry :=
  if !(allDevices.contains m.device_name) then none
  else if m.enabled then none
  else if !(connected.contains m.device_name) then some (.plain m.device_name)
  else if env.primary.contains m.device_name then none
  else if env.disableOk m.device_name then some (.plain m.device_name)
  else none

/-- Entry the disable pass appends to `failed` for monitor `m`. -/
def contrib1failed (env : DisplayEnv) (connected allDevices : List String)
    (m : MonitorInfo) : Option Entry :=
  if !(allDevices.contains m.device_name) then none
  else if m.enabled then none
  else if !(connected.contains m.device_name) then none
  else if env.primary.contains m.device_name then some (.primaryProtected m.device_name)
  else if env.disableOk m.device_name then none
  else some (.plain m.device_name)

/-- Device for which the disable pass stages a detach for monitor `m`. -/
def contrib1detached (env : DisplayEnv) (connected allDevices : List String)
    (m : MonitorInfo) : Option String :=
  if !(allDevices.contains m.device_name) then none
  else if m.enabled then none
  else if !(connected.contains m.device_name) then none
  else if env.primary.contains m.device_name then none
  else some m.device_name

/-- Condition under which the disable pass clears the success flag for `m`. -/
def cond1fail (env : DisplayEnv) (connected allDevices : List String)
    (m : MonitorInfo) : Bool :=
  allDevices.contains m.device_name && !m.enabled && connected.contains m.device_name &&
    !(env.primary.contains m.device_name) && !(env.disableOk m.device_name)

/-- Entry the extra-disable pass appends to `disabled` for connected device `d`. -/
def contrib2disabled (env : DisplayEnv) (profileNames : List String)
    (d : String) : Option Entry :=
  if profileNames.contains d then none
  else if env.primary.contains d then none
  else if env.disableOk d then some (.plain d)
  else none

/-- Device for which the extra-disable pass stages a detach. -/
def contrib2detached (env : DisplayEnv) (profileNames : List String)
    (d : String) : Option String :=
  if profileNames.contains d then none
  else if env.primary.contains d then none
  else some d

/-- Entry the configure pass appends to `applied` for monitor `m`. -/
def contrib3applied (env : DisplayEnv) (connected allDevices : List String)
    (m : MonitorInfo) : Option Entry :=
  if !(allDevices.contains m.device_name) then none
  else if !m.enabled then none
  else if !(connected.contains m.device_name) then
    if env.enableOk m.device_name then some (.reEnabled m.device_name) else none
  else if !(env.enumOk m.device_name) then none
  else if env.changeOk m.device_name then some (.plain m.device_name)
  else none

/-- Entry the configure pass appends to `failed` for monitor `m`. -/
def contrib3failed (env : DisplayEnv) (connected allDevices : List String)
    (m : MonitorInfo) : Option Entry :=
  if !(allDevices.contains m.device_name) then none
  else if !m.enabled then none
  else if !(connected.contains m.device_name) then
    if env.enableOk m.device_name then none else some (.failedEnable m.device_name)
  else if !(env.enumOk m.device_name) then none
  else if env.changeOk m.device_name then none
  else some (.plain m.device_name)

/-- Condition under which the configure pass clears the success flag for `m`. -/
def cond3fail (env : DisplayEnv) (connected allDevices : List String)
    (m : MonitorInfo) : Bool :=
  allDevices.contains m.device_name && m.enabled &&
    ((!(connected.contains m.device_name) && !(env.enableOk m.device_name)) ||
     (connected.contains m.device_name && env.enumOk m.device_name &&
       !(env.changeOk m.device_name)))

/-- Condition under which the configure pass wants to record `skipped`
for monitor `m` (subject to deduplication). -/
def cond3skip (env : DisplayEnv) (connected allDevices : List String)
    (m : MonitorInfo) : Bool :=
  allDevices.contains m.device_name && m.enabled &&
    connected.contains m.device_name && !(env.enumOk m.device_name)

/-- Whether some entry of `l` refers to device `D`. -/
def mentionsB (l : List Entry) (D : String) : Bool :=
  l.any fun e => e.device == D

theorem disablePass_foldl (env : DisplayEnv) (c a : List String)
    (ms : List MonitorInfo) (s : ApplyState) :
    ms.foldl (disablePassStep env c a) s =
      { res := { success := s.res.success && !(ms.any (cond1fail env c a)),
                 applied := s.res.applied,
                 skipped := s.res.skipped ++ ms.filterMap (contrib1skipped a),
                 failed := s.res.failed ++ ms.filterMap (contrib1failed env c a),
                 disabled := s.res.disabled ++ ms.filterMap (contrib1disabled env c a) },
        detached := s.detached ++ ms.filterMap (contrib1detached env c a) } := by
  induction ms generalizing s with
  | nil => simp
  | cons m ms ih =>
    rw [List.foldl_cons, ih]
    simp only [disablePassStep, contrib1skipped, contrib1failed, contrib1disabled,
      contrib1detached, cond1fail, List.any_cons, List.filterMap_cons]
    cases ha : a.contains m.device_name <;>
      cases he : m.enabled <;>
        cases hc : c.contains m.device_name <;>
          cases hp : env.primary.contains m.device_name <;>
            cases hd : env.disableOk m.device_name <;>
              simp [ha, he, hc, hp, hd, List.append_assoc, Bool.and_assoc]

theorem extraDisable_foldl (env : DisplayEnv) (names : List String)
    (ds : List String) (s : ApplyState) :
    ds.foldl (extraDisableStep env names) s =
      { res := { s.res with
                 disabled := s.res.disabled ++ ds.filterMap (contrib2disabled env names) },
        detached := s.detached ++ ds.filterMap (contrib2detached env names) } := by
  induction ds generalizing s with
  | nil => simp
  | cons d ds ih =>
    rw [List.foldl_cons, ih]
    simp only [extraDisableStep, contrib2disabled, contrib2detached,
      List.filterMap_cons]
    cases hn : names.contains d <;>
      cases hp : env.primary.contains d <;>
        cases hd : env.disableOk d <;>
          simp [hn, hp, hd, List.append_assoc]

theorem configure_applied (env : DisplayEnv) (c a : List String)
    (ms : List MonitorInfo) (s : ApplyState) :
    (ms.foldl (configureStep env c a) s).res.applied =
      s.res.applied ++ ms.filterMap (contrib3applied env c a) := by
  induction ms generalizing s with
  | nil => simp
  | cons m ms ih =>
    rw [List.foldl_cons, ih]
    simp only [configureStep, contrib3applied, List.filterMap_cons]
    cases ha : a.contains m.device_name <;>
      cases he : m.enabled <;>
        cases hc : c.contains m.device_name <;>
          cases hen : env.enableOk m.device_name <;>
            cases heu : env.enumOk m.device_name <;>
              cases hch : env.changeOk m.device_name <;>
                simp [ha, he, hc, hen, heu, hch, List.append_assoc] <;>
                  split <;> simp [List.append_assoc]

theorem configure_failed (env : DisplayEnv) (c a : List String)
    (ms : List MonitorInfo) (s : ApplyState) :
    (ms.foldl (configureStep env c a) s).res.failed =
      s.res.failed ++ ms.filterMap (contrib3failed env c a) := by
  induction ms generalizing s with
  | nil => simp
  | cons m ms ih =>
    rw [List.foldl_cons, ih]
    simp only [configureStep, contrib3failed, List.filterMap_cons]
    cases ha : a.contains m.device_name <;>
      cases he : m.enabled <;>
        cases hc : c.contains m.device_name <;>
          cases hen : env.enableOk m.device_name <;>
            cases heu : env.enumOk m.device_name <;>
              cases hch : env.changeOk m.device_name <;>
                simp [ha, he, hc, hen, heu, hch, List.append_assoc] <;>
                  split <;> simp [List.append_assoc]

theorem configure_disabled (env : DisplayEnv) (c a : List String)
    (ms : List MonitorInfo) (s : ApplyState) :
    (ms.foldl (configureStep env c a) s).res.disabled = s.res.disabled := by
  induction ms generalizing s with
  | nil => simp
  | cons m ms ih =>
    rw [List.foldl_cons, ih]
    simp only [configureStep]
    cases ha : a.contains m.device_name <;>
      cases he : m.enabled <;>
        cases hc : c.contains m.device_name <;>
          cases hen : env.enableOk m.device_name <;>
            cases heu : env.enumOk m.device_name <;>
              cases hch : env.changeOk m.device_name <;>
                simp [ha, he, hc, hen, heu, hch] <;> split <;> simp

theorem configure_detached (env : DisplayEnv) (c a : List String)
    (ms : List MonitorInfo) (s : ApplyState) :
    (ms.foldl (configureStep env c a) s).detached = s.detached := by
  induction ms generalizing s with
  | nil => simp
  | cons m ms ih =>
    rw [List.foldl_cons, ih]
    simp only [configureStep]
    cases ha : a.contains m.device_name <;>
      cases he : m.enabled <;>
        cases hc : c.contains m.device_name <;>
          cases hen : env.enableOk m.device_name <;>
            cases heu : env.enumOk m.device_name <;>
              cases hch : env.changeOk m.device_name <;>
                simp [ha, he, hc, hen, heu, hch] <;> split <;> simp

theorem configure_success (env : DisplayEnv) (c a : List String)
    (ms : List MonitorInfo) (s : ApplyState) :
    (ms.foldl (configureStep env c a) s).res.success =
      (s.res.success && !(ms.any (cond3fail env c a))) := by
  induction ms generalizing s with
  | nil => simp
  | cons m ms ih =>
    rw [List.foldl_cons, ih]
    simp only [configureStep, cond3fail, List.any_cons]
    cases ha : a.contains m.device_name <;>
      cases he : m.enabled <;>
        cases hc : c.contains m.device_name <;>
          cases hen : env.enableOk m.device_name <;>
            cases heu : env.enumOk m.device_name <;>
              cases hch : env.changeOk m.device_name <;>
                simp [ha, he, hc, hen, heu, hch, Bool.and_assoc] <;>
                  split <;> simp

theorem mentionsB_append (l₁ l₂ : List Entry) (D : String) :
    mentionsB (l₁ ++ l₂) D = (mentionsB l₁ D || mentionsB l₂ D) := by
  simp [mentionsB]

theorem mentionsB_of_mem {l : List Entry} {e : Entry} {D : String}
    (h : e ∈ l) (hd : e.device = D) : mentionsB l D = true := by
  simp only [mentionsB, List.any_eq_true]
  exact ⟨e, h, by simp [hd]⟩

theorem mentionsB_eq_false_iff (l : List Entry) (D : String) :
    mentionsB l D = false ↔ ∀ e ∈ l, e.device ≠ D := by
  simp [mentionsB, List.any_eq_false]

theorem configureStep_skipped_mentions (env : DisplayEnv) (c a : List String)
    (s : ApplyState) (m : MonitorInfo) (D : String) :
    mentionsB (configureStep env c a s m).res.skipped D =
      (mentionsB s.res.skipped D || ((m.device_name == D) && cond3skip env c a m)) := by
  simp only [configureStep, cond3skip]
  cases ha : a.contains m.device_name
  · simp [ha]
  · cases he : m.enabled
    · simp [he]
    · cases hc : c.contains m.device_name
      · cases hen : env.enableOk m.device_name <;> simp [ha, he, hc, hen]
      · cases heu : env.enumOk m.device_name
        · by_cases hin : Entry.plain m.device_name ∈ s.res.skipped
          · have hmem : mentionsB s.res.skipped m.device_name = true :=
              mentionsB_of_mem hin rfl
            by_cases hD : m.device_name = D
            · subst hD
              simp [ha, he, hc, heu, hin, hmem]
            · simp [ha, he, hc, heu, hin, hD]
          · by_cases hD : m.device_name = D
            · subst hD
              simp [ha, he, hc, heu, hin, mentionsB_append, mentionsB, Entry.device]
            · simp [ha, he, hc, heu, hin, hD, mentionsB_append, mentionsB, Entry.device]
        · cases hch : env.changeOk m.device_name <;> simp [ha, he, hc, heu, hch]

theorem configure_skipped_mentions (env : DisplayEnv) (c a : List String)
    (ms : List MonitorInfo) (s : ApplyState) (D : String) :
    mentionsB (ms.foldl (configureStep env c a) s).res.skipped D =
      (mentionsB s.res.skipped D ||
        ms.any fun m => (m.device_name == D) && cond3skip env c a m) := by
  induction ms generalizing s with
  | nil => simp
  | cons m ms ih =>
    rw [List.foldl_cons, ih, configureStep_skipped_mentions, List.any_cons,
      Bool.or_assoc]

theorem stagePasses_applied (env : DisplayEnv) (ms : List MonitorInfo) (de : Bool) :
    (stagePasses env ms de).res.applied =
      ms.filterMap (contrib3applied env (effConnected env ms) (effAll env ms)) := by
  cases de <;>
    simp [stagePasses, configure_applied, extraDisable_foldl, disablePass_foldl]

theorem stagePasses_disabled (env : DisplayEnv) (ms : List MonitorInfo) (de : Bool) :
    (stagePasses env ms de).res.disabled =
      ms.filterMap (contrib1disabled env (effConnected env ms) (effAll env ms)) ++
        (if de then (effConnected env ms).filterMap
            (contrib2disabled env (ms.map (·.device_name))) else []) := by
  cases de <;>
    simp [stagePasses, configure_disabled, extraDisable_foldl, disablePass_foldl]

theorem stagePasses_failed (env : DisplayEnv) (ms : List MonitorInfo) (de : Bool) :
    (stagePasses env ms de).res.failed =
      ms.filterMap (contrib1failed env (effConnected env ms) (effAll env ms)) ++
        ms.filterMap (contrib3failed env (effConnected env ms) (effAll env ms)) := by
  cases de <;>
    simp [stagePasses, configure_failed, extraDisable_foldl, disablePass_foldl]

theorem stagePasses_detached (env : DisplayEnv) (ms : List MonitorInfo) (de : Bool) :
    (stagePasses env ms de).detached =
      ms.filterMap (contrib1detached env (effConnected env ms) (effAll env ms)) ++
        (if de then (effConnected env ms).filterMap
            (contrib2detached env (ms.map (·.device_name))) else []) := by
  cases de <;>
    simp [stagePasses, configure_detached, extraDisable_foldl, disablePass_foldl]

theorem stagePasses_skipped_mentions (env : DisplayEnv) (ms : List MonitorInfo)
    (de : Bool) (D : String) :
    mentionsB (stagePasses env ms de).res.skipped D =
      (mentionsB (ms.filterMap (contrib1skipped (effAll env ms))) D ||
        ms.any fun m =>
          (m.device_name == D) && cond3skip env (effConnected env ms) (effAll env ms) m) := by
  cases de <;>
    simp [stagePasses, configure_skipped_mentions, extraDisable_foldl, disablePass_foldl]

theorem stagePasses_success (env : DisplayEnv) (ms : List MonitorInfo) (de : Bool) :
    (stagePasses env ms de).res.success =
      (!(ms.any (cond1fail env (effConnected env ms) (effAll env ms))) &&
       !(ms.any (cond3fail env (effConnected env ms) (effAll env ms)))) := by
  cases de <;>
    simp [stagePasses, configure_success, extraDisable_foldl, disablePass_foldl]

theorem ams_applied (env : DisplayEnv) (ms : List MonitorInfo) (de : Bool) :
    (applyMonitorSettings env ms de).res.applied = (stagePasses env ms de).res.applied := by
  simp only [applyMonitorSettings]
  split
  · rfl
  · split <;> rfl

theorem ams_skipped (env : DisplayEnv) (ms : List MonitorInfo) (de : Bool) :
    (applyMonitorSettings env ms de).res.skipped = (stagePasses env ms de).res.skipped := by
  simp only [applyMonitorSettings]
  split
  · rfl
  · split <;> rfl

theorem ams_failed (env : DisplayEnv) (ms : List MonitorInfo) (de : Bool) :
    (applyMonitorSettings env ms de).res.failed = (stagePasses env ms de).res.failed := by
  simp only [applyMonitorSettings]
  split
  · rfl
  · split <;> rfl

theorem ams_disabled (env : DisplayEnv) (ms : List MonitorInfo) (de : Bool) :
    (applyMonitorSettings env ms de).res.disabled = (stagePasses env ms de).res.disabled := by
  simp only [applyMonitorSettings]
  split
  · rfl
  · split <;> rfl

theorem ams_detached (env : DisplayEnv) (ms : List MonitorInfo) (de : Bool) :
    (applyMonitorSettings env ms de).detached = (stagePasses env ms de).detached := by
  simp only [applyMonitorSettings]
  split
  · rfl
  · split <;> rfl

/-- Overall success: the staged success flag, cleared additionally when a
commit is attempted (something applied or disabled) and fails. -/
theorem ams_success (env : DisplayEnv) (ms : List MonitorInfo) (de : Bool) :
    (applyMonitorSettings env ms de).res.success =
      ((stagePasses env ms de).res.success &&
        (((stagePasses env ms de).res.applied.isEmpty &&
          (stagePasses env ms de).res.disabled.isEmpty) || env.commitOk)) := by
  simp only [applyMonitorSettings]
  split
  · simp_all
  · split <;> simp_all

/-! ### Device identities carried by the contribution entries -/

theorem contrib1skipped_device {a : List String} {m : MonitorInfo} {e : Entry}
    (h : contrib1skipped a m = some e) : e.device = m.device_name := by
  unfold contrib1skipped at h
  split_ifs at h <;> cases h <;> rfl

theorem contrib1disabled_device {env : DisplayEnv} {c a : List String}
    {m : MonitorInfo} {e : Entry}
    (h : contrib1disabled env c a m = some e) : e.device = m.device_name := by
  unfold contrib1disabled at h
  split_ifs at h <;> cases h <;> rfl

theorem contrib1failed_device {env : DisplayEnv} {c a : List String}
    {m : MonitorInfo} {e : Entry}
    (h : contrib1failed env c a m = some e) : e.device = m.device_name := by
  unfold contrib1failed at h
  split_ifs at h <;> cases h <;> rfl

theorem contrib2disabled_device {env : DisplayEnv} {names : List String}
    {d : String} {e : Entry}
    (h : contrib2disabled env names d = some e) : e.device = d := by
  unfold contrib2disabled at h
  split_ifs at h <;> cases h <;> rfl

theorem contrib3applied_device {env : DisplayEnv} {c a : List String}
    {m : MonitorInfo} {e : Entry}
    (h : contrib3applied env c a m = some e) : e.device = m.device_name := by
  unfold contrib3applied at h
  split_ifs at h <;> cases h <;> rfl

theorem contrib3failed_device {env : DisplayEnv} {c a : List String}
    {m : MonitorInfo} {e : Entry}
    (h : contrib3failed env c a m = some e) : e.device = m.device_name := by
  unfold contrib3failed at h
  split_ifs at h <;> cases h <;> rfl

/-! ### Claim C1: the primary device is never disabled -/

/-- C1: for every desired layout and live device state (with the primary
flag carried by a connected device, and connected devices known to the
OS), a spec with `enabled = false` whose device is the current primary is
recorded in `failed` with the protection message, never lands in
`disabled`, and no detach is ever staged for the primary device. -/
theorem c1_primary_disable_protected (env : DisplayEnv) (ms : List MonitorInfo)
    (de : Bool) (m : MonitorInfo)
    (hwf1 : env.primary.all (fun d => (effConnected env ms).contains d) = true)
    (hwf2 : (effConnected env ms).all (fun d => (effAll env ms).contains d) = true)
    (hm : m ∈ ms) (hen : m.enabled = false)
    (hp : env.primary.contains m.device_name = true) :
    Entry.primaryProtected m.device_name ∈ (applyMonitorSettings env ms de).res.failed ∧
    (∀ e ∈ (applyMonitorSettings env ms de).res.disabled, e.device ≠ m.device_name) ∧
    m.device_name ∉ (applyMonitorSettings env ms de).detached := by
  have hpmem : m.device_name ∈ env.primary := by simpa using hp
  have hc : (effConnected env ms).contains m.device_name = true := by
    have := List.all_eq_true.mp hwf1 m.device_name hpmem
    simpa using this
  have ha : (effAll env ms).contains m.device_name = true := by
    have hcmem : m.device_name ∈ effConnected env ms := by simpa using hc
    have := List.all_eq_true.mp hwf2 m.device_name hcmem
    simpa using this
  have haMem : m.device_name ∈ effAll env ms := by simpa using ha
  have hcMem : m.device_name ∈ effConnected env ms := by simpa using hc
  refine ⟨?_, ?_, ?_⟩
  · rw [ams_failed, stagePasses_failed]
    refine List.mem_append_left _ (List.mem_filterMap.mpr ⟨m, hm, ?_⟩)
    simp [contrib1failed, haMem, hen, hcMem, hpmem]
  · rw [ams_disabled, stagePasses_disabled]
    intro e he hdev
    rcases List.mem_append.mp he with he | he
    · rcases List.mem_filterMap.mp he with ⟨m', hm', hcon⟩
      have hdev' : e.device = m'.device_name := contrib1disabled_device hcon
      unfold contrib1disabled at hcon
      rw [hdev] at hdev'
      split_ifs at hcon with h1 h2 h3 h4 h5 <;> simp_all
    · cases de with
      | false => simp at he
      | true =>
        simp only [if_true] at he
        rcases List.mem_filterMap.mp he with ⟨d, hd, hcon⟩
        have hdev' : e.device = d := contrib2disabled_device hcon
        unfold contrib2disabled at hcon
        rw [hdev] at hdev'
        split_ifs at hcon with h1 h2 h3 <;> simp_all
  · rw [ams_detached, stagePasses_detached]
    intro hmem
    rcases List.mem_append.mp hmem with hmem | hmem
    · rcases List.mem_filterMap.mp hmem with ⟨m', hm', hcon⟩
      unfold contrib1detached at hcon
      split_ifs at hcon with h1 h2 h3 h4 <;> simp_all
    · cases de with
      | false => simp at hmem
      | true =>
        simp only [if_true] at hmem
        rcases List.mem_filterMap.mp hmem with ⟨d, hd, hcon⟩
        unfold contrib2detached at hcon
        split_ifs at hcon with h1 h2 <;> simp_all

/-- Witness environment: one device `P`, primary, connected, layout asks to
disable it. -/
def envW1 : DisplayEnv :=
  { connected0 := ["P"], allDevices0 := ["P"], connected1 := [], allDevices1 := [],
    primary := ["P"], disableOk := fun _ => true, enableOk := fun _ => true,
    enumOk := fun _ => true, changeOk := fun _ => true, commitOk := true }

/-- Witness layout: the single spec disables the primary device. -/
def msW1 : List MonitorInfo := [{ device_name := "P", enabled := false }]

theorem c1_primary_disable_protected_witness :
    Entry.primaryProtected "P" ∈ (applyMonitorSettings envW1 msW1 false).res.failed ∧
    (∀ e ∈ (applyMonitorSettings envW1 msW1 false).res.disabled, e.device ≠ "P") ∧
    "P" ∉ (applyMonitorSettings envW1 msW1 false).detached :=
  c1_primary_disable_protected envW1 msW1 false { device_name := "P", enabled := false }
    (by decide) (by decide) (by decide) (by decide) (by decide)

/-! ### Claim C2: every named device lands in exactly one outcome set -/

theorem mentionsB_filterMap (f : MonitorInfo → Option Entry) (ms : List MonitorInfo)
    (D : String) (hf : ∀ m e, f m = some e → e.device = m.device_name) :
    mentionsB (ms.filterMap f) D =
      ms.any fun m => (m.device_name == D) && (f m).isSome := by
  induction ms with
  | nil => simp [mentionsB]
  | cons m ms ih =>
    rw [List.filterMap_cons]
    cases hfm : f m with
    | none => simpa [mentionsB, List.any_cons, hfm] using ih
    | some e =>
      have hd := hf m e hfm
      have hcons : mentionsB (e :: List.filterMap f ms) D =
          ((e.device == D) || mentionsB (List.filterMap f ms) D) := by
        simp [mentionsB]
      rw [hcons, ih, hd]
      simp [List.any_cons, hfm]

theorem any_name_and (ms : List MonitorInfo) (m₀ : MonitorInfo) (p : MonitorInfo → Bool)
    (hnd : (ms.map (·.device_name)).Nodup) (h₀ : m₀ ∈ ms) :
    (ms.any fun m => (m.device_name == m₀.device_name) && p m) = p m₀ := by
  cases hp : p m₀ with
  | true =>
    rw [List.any_eq_true]
    exact ⟨m₀, h₀, by simp [hp]⟩
  | false =>
    rw [List.any_eq_false]
    intro m hm
    by_cases hd : m.device_name = m₀.device_name
    · have : m = m₀ := List.inj_on_of_nodup_map hnd hm h₀ hd
      subst this
      simp [hp]
    · simp [hd]

/-- Entries contributed by the extra-disable pass name devices outside the
profile, so they never mention a profile device. -/
theorem mentionsB_contrib2_false (env : DisplayEnv) (names : List String)
    (ds : List String) (D : String) (hD : names.contains D = true) :
    mentionsB (ds.filterMap (contrib2disabled env names)) D = false := by
  rw [mentionsB, List.any_eq_false]
  intro e he
  rcases List.mem_filterMap.mp he with ⟨d, hd, hcon⟩
  unfold contrib2disabled at hcon
  split_ifs at hcon with h1 h2 h3
  cases hcon
  simp only [Entry.device, beq_iff_eq]
  intro hcontra
  subst hcontra
  simp_all

/-- C2 (amended): for a layout whose device names are pairwise distinct,
every device named in the layout is mentioned by exactly one of the four
outcome sets applied/skipped/disabled/failed after reconciliation. -/
theorem c2_exactly_one_outcome (env : DisplayEnv) (ms : List MonitorInfo) (de : Bool)
    (D : String) (hnd : (ms.map (·.device_name)).Nodup)
    (hD : D ∈ ms.map (·.device_name)) :
    ((mentionsB (applyMonitorSettings env ms de).res.applied D).toNat +
     (mentionsB (applyMonitorSettings env ms de).res.skipped D).toNat +
     (mentionsB (applyMonitorSettings env ms de).res.disabled D).toNat +
     (mentionsB (applyMonitorSettings env ms de).res.failed D).toNat) = 1 := by
  rcases List.mem_map.mp hD with ⟨m₀, hm₀, hdev⟩
  subst hdev
  have happ : mentionsB (applyMonitorSettings env ms de).res.applied m₀.device_name =
      (contrib3applied env (effConnected env ms) (effAll env ms) m₀).isSome := by
    rw [ams_applied, stagePasses_applied,
      mentionsB_filterMap _ _ _ (fun m e h => contrib3applied_device h),
      any_name_and ms m₀ _ hnd hm₀]
  have hskip : mentionsB (applyMonitorSettings env ms de).res.skipped m₀.device_name =
      ((contrib1skipped (effAll env ms) m₀).isSome ||
        cond3skip env (effConnected env ms) (effAll env ms) m₀) := by
    rw [ams_skipped, stagePasses_skipped_mentions,
      mentionsB_filterMap _ _ _ (fun m e h => contrib1skipped_device h),
      any_name_and ms m₀ _ hnd hm₀, any_name_and ms m₀ _ hnd hm₀]
  have hdis : mentionsB (applyMonitorSettings env ms de).res.disabled m₀.device_name =
      (contrib1disabled env (effConnected env ms) (effAll env ms) m₀).isSome := by
    rw [ams_disabled, stagePasses_disabled, mentionsB_append,
      mentionsB_filterMap _ _ _ (fun m e h => contrib1disabled_device h),
      any_name_and ms m₀ _ hnd hm₀]
    have h2 : mentionsB
        (if de then (effConnected env ms).filterMap
            (contrib2disabled env (ms.map (·.device_name))) else []) m₀.device_name =
        false := by
      cases de
      · simp [mentionsB]
      · rw [if_pos rfl]
        exact mentionsB_contrib2_false _ _ _ _
          (by simpa using List.mem_map_of_mem (fun m : MonitorInfo => m.device_name) hm₀)
    rw [h2, Bool.or_false]
  have hfail : mentionsB (applyMonitorSettings env ms de).res.failed m₀.device_name =
      ((contrib1failed env (effConnected env ms) (effAll env ms) m₀).isSome ||
       (contrib3failed env (effConnected env ms) (effAll env ms) m₀).isSome) := by
    rw [ams_failed, stagePasses_failed, mentionsB_append,
      mentionsB_filterMap _ _ _ (fun m e h => contrib1failed_device h),
      any_name_and ms m₀ _ hnd hm₀,
      mentionsB_filterMap _ _ _ (fun m e h => contrib3failed_device h),
      any_name_and ms m₀ _ hnd hm₀]
  rw [happ, hskip, hdis, hfail]
  simp only [contrib3applied, contrib1skipped, contrib1disabled, contrib1failed,
    contrib3failed, cond3skip]
  cases ha : (effAll env ms).contains m₀.device_name <;>
    cases he : m₀.enabled <;>
      cases hc : (effConnected env ms).contains m₀.device_name <;>
        cases hp : env.primary.contains m₀.device_name <;>
          cases hdo : env.disableOk m₀.device_name <;>
            cases hen : env.enableOk m₀.device_name <;>
              cases heu : env.enumOk m₀.device_name <;>
                cases hch : env.changeOk m₀.device_name <;>
                  simp [ha, he, hc, hp, hdo, hen, heu, hch]

/-- C2 counterexample environment: one device `D`, connected and known,
not primary, all operations succeed. -/
def envW2 : DisplayEnv :=
  { connected0 := ["D"], allDevices0 := ["D"], connected1 := [], allDevices1 := [],
    primary := [], disableOk := fun _ => true, enableOk := fun _ => true,
    enumOk := fun _ => true, changeOk := fun _ => true, commitOk := true }

/-- C2 counterexample layout: device `D` is named twice, once disabled and
once enabled. -/
def msW2 : List MonitorInfo :=
  [{ device_name := "D", enabled := false }, { device_name := "D", enabled := true }]

/-- C2 counterexample: with a layout naming `D` twice, `D` is mentioned by
both `disabled` and `applied`, hence not by exactly one outcome set. -/
theorem c2_counterexample :
    mentionsB (applyMonitorSettings envW2 msW2 false).res.disabled "D" = true ∧
    mentionsB (applyMonitorSettings envW2 msW2 false).res.applied "D" = true ∧
    ¬(((mentionsB (applyMonitorSettings envW2 msW2 false).res.applied "D").toNat +
       (mentionsB (applyMonitorSettings envW2 msW2 false).res.skipped "D").toNat +
       (mentionsB (applyMonitorSettings envW2 msW2 false).res.disabled "D").toNat +
       (mentionsB (applyMonitorSettings envW2 msW2 false).res.failed "D").toNat) = 1) := by
  decide

/-- Witness layout for C2: a single enabled device `D`. -/
def msW2b : List MonitorInfo := [{ device_name := "D", enabled := true }]

theorem c2_exactly_one_outcome_witness :
    ((mentionsB (applyMonitorSettings envW2 msW2b false).res.applied "D").toNat +
     (mentionsB (applyMonitorSettings envW2 msW2b false).res.skipped "D").toNat +
     (mentionsB (applyMonitorSettings envW2 msW2b false).res.disabled "D").toNat +
     (mentionsB (applyMonitorSettings envW2 msW2b false).res.failed "D").toNat) = 1 :=
  c2_exactly_one_outcome envW2 msW2b false "D" (by decide) (by decide)

/-! ### Claim C3: when the overall success flag is false -/

/-- C3 (amended): the success flag is false whenever a staged per-device
apply or disable for a layout device fails, and whenever a commit is
attempted (something was applied or disabled) and the global commit fails.
A primary-protection violation does not by itself clear the flag. -/
theorem c3_success_conditions (env : DisplayEnv) (ms : List MonitorInfo) (de : Bool) :
    ((ms.any (cond1fail env (effConnected env ms) (effAll env ms)) ||
      ms.any (cond3fail env (effConnected env ms) (effAll env ms))) = true →
      (applyMonitorSettings env ms de).res.success = false) ∧
    (((applyMonitorSettings env ms de).res.applied.isEmpty &&
      (applyMonitorSettings env ms de).res.disabled.isEmpty) = false →
      env.commitOk = false →
      (applyMonitorSettings env ms de).res.success = false) := by
  constructor
  · intro h
    rw [ams_success, stagePasses_success]
    rcases Bool.or_eq_true _ _ |>.mp h with h' | h' <;> simp [h']
  · intro hne hcommit
    rw [ams_applied, ams_disabled] at hne
    rw [ams_success, hne, hcommit]
    simp

/-- C3 counterexample environment: primary device `P` and extra connected
device `E`; every detach attempt fails; the commit would succeed. -/
def envW3 : DisplayEnv :=
  { connected0 := ["P", "E"], allDevices0 := ["P", "E"], connected1 := [],
    allDevices1 := [], primary := ["P"], disableOk := fun _ => false,
    enableOk := fun _ => true, enumOk := fun _ => true, changeOk := fun _ => true,
    commitOk := true }

/-- C3 counterexample layout: a single spec disabling the primary `P`. -/
def msW3 : List MonitorInfo := [{ device_name := "P", enabled := false }]

/-- C3 counterexample: a primary-protection violation occurs (disable
request for the current primary `P`) and an individual staged detach fails
(extra device `E`), yet the overall success flag is true. -/
theorem c3_counterexample :
    Entry.primaryProtected "P" ∈ (applyMonitorSettings envW3 msW3 true).res.failed ∧
    "E" ∈ (applyMonitorSettings envW3 msW3 true).detached ∧
    envW3.disableOk "E" = false ∧
    (applyMonitorSettings envW3 msW3 true).res.success = true := by
  decide

/-- Witness environment for C3: layout device `D` whose detach fails. -/
def envW3b : DisplayEnv :=
  { connected0 := ["D"], allDevices0 := ["D"], connected1 := [], allDevices1 := [],
    primary := [], disableOk := fun _ => false, enableOk := fun _ => true,
    enumOk := fun _ => true, changeOk := fun _ => true, commitOk := true }

/-- Witness layout for C3. -/
def msW3b : List MonitorInfo := [{ device_name := "D", enabled := false }]

theorem c3_success_conditions_witness :
    (applyMonitorSettings envW3b msW3b false).res.success = false :=
  (c3_success_conditions envW3b msW3b false).1 (by decide)

/-! ### Claim C9: the extra-disable pass is silent -/

/-- A device not named by the layout whose detach would be skipped
(primary) or fails is never mentioned by any outcome set. -/
theorem unnamed_device_unmentioned (env : DisplayEnv) (ms : List MonitorInfo)
    (E : String) (hname : (ms.map (·.device_name)).contains E = false)
    (hE : env.primary.contains E = true ∨ env.disableOk E = false) :
    (∀ e ∈ (applyMonitorSettings env ms true).res.applied, e.device ≠ E) ∧
    (∀ e ∈ (applyMonitorSettings env ms true).res.skipped, e.device ≠ E) ∧
    (∀ e ∈ (applyMonitorSettings env ms true).res.disabled, e.device ≠ E) ∧
    (∀ e ∈ (applyMonitorSettings env ms true).res.failed, e.device ≠ E) := by
  have hnotIn : ∀ m ∈ ms, m.device_name ≠ E := by
    intro m hm heq
    have : E ∈ ms.map (·.device_name) := List.mem_map.mpr ⟨m, hm, heq⟩
    simp_all
  refine ⟨?_, ?_, ?_, ?_⟩
  · rw [ams_applied, stagePasses_applied]
    intro e he
    rcases List.mem_filterMap.mp he with ⟨m, hm, hcon⟩
    rw [contrib3applied_device hcon]
    exact hnotIn m hm
  · have hmen : mentionsB (applyMonitorSettings env ms true).res.skipped E = false := by
      rw [ams_skipped, stagePasses_skipped_mentions,
        mentionsB_filterMap _ _ _ (fun m e h => contrib1skipped_device h)]
      rw [Bool.or_eq_false_iff]
      constructor <;>
        (rw [List.any_eq_false]; intro m hm; simp [hnotIn m hm])
    exact (mentionsB_eq_false_iff _ _).mp hmen
  · rw [ams_disabled, stagePasses_disabled]
    intro e he
    rcases List.mem_append.mp he with he | he
    · rcases List.mem_filterMap.mp he with ⟨m, hm, hcon⟩
      rw [contrib1disabled_device hcon]
      exact hnotIn m hm
    · rw [if_pos rfl] at he
      rcases List.mem_filterMap.mp he with ⟨d, hd, hcon⟩
      unfold contrib2disabled at hcon
      split_ifs at hcon with h1 h2 h3
      cases hcon
      simp only [Entry.device]
      intro heq
      subst heq
      rcases hE with hp | hdo <;> simp_all
  · rw [ams_failed, stagePasses_failed]
    intro e he
    rcases List.mem_append.mp he with he | he
    · rcases List.mem_filterMap.mp he with ⟨m, hm, hcon⟩
      rw [contrib1failed_device hcon]
      exact hnotIn m hm
    · rcases List.mem_filterMap.mp he with ⟨m, hm, hcon⟩
      rw [contrib3failed_device hcon]
      exact hnotIn m hm

/-- The primary device never has a detach staged by the extra-disable pass
(nor by the disable pass when unnamed). -/
theorem unnamed_primary_not_detached (env : DisplayEnv) (ms : List MonitorInfo)
    (E : String) (hname : (ms.map (·.device_name)).contains E = false)
    (hp : env.primary.contains E = true) :
    E ∉ (applyMonitorSettings env ms true).detached := by
  have hnotIn : ∀ m ∈ ms, m.device_name ≠ E := by
    intro m hm heq
    have : E ∈ ms.map (·.device_name) := List.mem_map.mpr ⟨m, hm, heq⟩
    simp_all
  intro hmem
  rw [ams_detached, stagePasses_detached] at hmem
  rcases List.mem_append.mp hmem with hmem | hmem
  · rcases List.mem_filterMap.mp hmem with ⟨m, hm, hcon⟩
    unfold contrib1detached at hcon
    split_ifs at hcon
    simp only [Option.some.injEq] at hcon
    exact hnotIn m hm hcon
  · rw [if_pos rfl] at hmem
    rcases List.mem_filterMap.mp hmem with ⟨d, hd, hcon⟩
    unfold contrib2detached at hcon
    split_ifs at hcon with h1 h2
    simp only [Option.some.injEq] at hcon
    subst hcon
    simp_all

/-- C9: in the extra-disable pass, a connected device not named by the
layout is silently kept when primary (recorded nowhere and no detach
staged) or when its staged detach fails (recorded nowhere), and the pass
never modifies the overall success flag. -/
theorem c9_extra_disable_silent (env : DisplayEnv) (ms : List MonitorInfo) (E : String)
    (hconn : (effConnected env ms).contains E = true)
    (hname : (ms.map (·.device_name)).contains E = false) :
    (env.primary.contains E = true →
       (∀ e ∈ (applyMonitorSettings env ms true).res.applied, e.device ≠ E) ∧
       (∀ e ∈ (applyMonitorSettings env ms true).res.skipped, e.device ≠ E) ∧
       (∀ e ∈ (applyMonitorSettings env ms true).res.disabled, e.device ≠ E) ∧
       (∀ e ∈ (applyMonitorSettings env ms true).res.failed, e.device ≠ E) ∧
       E ∉ (applyMonitorSettings env ms true).detached) ∧
    (env.disableOk E = false →
       (∀ e ∈ (applyMonitorSettings env ms true).res.applied, e.device ≠ E) ∧
       (∀ e ∈ (applyMonitorSettings env ms true).res.skipped, e.device ≠ E) ∧
       (∀ e ∈ (applyMonitorSettings env ms true).res.disabled, e.device ≠ E) ∧
       (∀ e ∈ (applyMonitorSettings env ms true).res.failed, e.device ≠ E)) ∧
    (∀ (s : ApplyState) (ds : List String),
       (ds.foldl (extraDisableStep env (ms.map (·.device_name))) s).res.success =
         s.res.success) := by
  refine ⟨fun hp => ?_, fun hdo => ?_, fun s ds => by simp [extraDisable_foldl]⟩
  · obtain ⟨h1, h2, h3, h4⟩ := unnamed_device_unmentioned env ms E hname (Or.inl hp)
    exact ⟨h1, h2, h3, h4, unnamed_primary_not_detached env ms E hname hp⟩
  · exact unnamed_device_unmentioned env ms E hname (Or.inr hdo)

/-- Witness environment for C9: primary `P` and extra device `E`, both
connected; every detach fails. -/
def envW9 : DisplayEnv :=
  { connected0 := ["P", "E"], allDevices0 := ["P", "E"], connected1 := [],
    allDevices1 := [], primary := ["P"], disableOk := fun _ => false,
    enableOk := fun _ => true, enumOk := fun _ => true, changeOk := fun _ => true,
    commitOk := true }

/-- Witness layout for C9: names only the absent device `D`. -/
def msW9 : List MonitorInfo := [{ device_name := "D", enabled := true }]

theorem c9_extra_disable_silent_witness :
    (∀ e ∈ (applyMonitorSettings envW9 msW9 true).res.disabled, e.device ≠ "E") ∧
    "P" ∉ (applyMonitorSettings envW9 msW9 true).detached :=
  ⟨(((c9_extra_disable_silent envW9 msW9 "E" (by decide) (by decide)).2.1
      (by decide)).2.2.1),
   (((c9_extra_disable_silent envW9 msW9 "P" (by decide) (by decide)).1
      (by decide)).2.2.2.2)⟩

/-! ### Mode matching (`get_best_display_mode`, monitor_api.py 225-295) -/

/-- A concrete display mode as enumerated by the OS (the DEVMODE fields
the matching loop reads). -/
structure Mode where
  width : Int
  height : Int
  freq : Int
deriving Repr, DecidableEq

/-- Search (native, possibly swapped) dimensions, lines 246-251: swapped
when the caller passes `is_rotated` or the stored height exceeds the
stored width. -/
def searchDims (tw th : Int) (isRotated : Bool) : Int × Int :=
  if isRotated || th > tw then (th, tw) else (tw, th)

/-- Exact (verbatim) size match, line 269. -/
def isExact (tw th : Int) (m : Mode) : Bool :=
  m.width == tw && m.height == th

/-- Native (search-dimension) size match, line 270. -/
def isNative (tw th : Int) (rot : Bool) (m : Mode) : Bool :=
  m.width == (searchDims tw th rot).1 && m.height == (searchDims tw th rot).2

/-- Refresh bonus, lines 274-277: 100 for an identical refresh, otherwise
max 0 (50 - |refresh difference|). -/
def refreshBonus (tr : Int) (m : Mode) : Int :=
  if m.freq == tr then 100 else max 0 (50 - |m.freq - tr|)

/-- Score of a matching mode (`none` when the mode matches neither way),
lines 272-277. -/
def modeScore (tw th tr : Int) (rot : Bool) (m : Mode) : Option Int :=
  if isExact tw th m || isNative tw th rot m then
    some ((if isExact tw th m then 1000 else 900) + refreshBonus tr m)
  else none

/-- Loop state of `get_best_display_mode`. -/
structure BestState where
  bestMode : Option Mode := none
  bestScore : Int := -1
  highestMode : Option Mode := none
  highestPixels : Int := 0
deriving Repr, DecidableEq

/-- One iteration of the enumeration loop (lines 257-287): update the
highest-resolution fallback candidate, then the best-scoring match. -/
def bestStep (tw th tr : Int) (rot : Bool) (s : BestState) (m : Mode) : BestState :=
  let pixels := m.width * m.height
  let hfreq := match s.highestMode with
    | some hm => hm.freq
    | none => 0
  let s1 := if pixels > s.highestPixels ∨ (pixels = s.highestPixels ∧ m.freq > hfreq)
    then { s with highestMode := some m, highestPixels := pixels } else s
  match modeScore tw th tr rot m with
  | some sc => if sc > s1.bestScore then { s1 with bestMode := some m, bestScore := sc }
               else s1
  | none => s1

/-- Shallow embedding of `get_best_display_mode` over an enumerated mode
list: the best exact/native match if any, else the highest mode when the
fallback is permitted. -/
def getBestDisplayMode (tw th tr : Int) (rot fallback : Bool)
    (modes : List Mode) : Option Mode :=
  let fin := modes.foldl (bestStep tw th tr rot) {}
  match fin.bestMode with
  | some b => some b
  | none => if fallback then fin.highestMode else none

/-- Best-candidate component of one loop iteration. -/
def bestPair (tw th tr : Int) (rot : Bool) (p : Option Mode × Int) (m : Mode) :
    Option Mode × Int :=
  match modeScore tw th tr rot m with
  | some sc => if sc > p.2 then (some m, sc) else p
  | none => p

theorem bestStep_proj (tw th tr : Int) (rot : Bool) (s : BestState) (m : Mode) :
    ((bestStep tw th tr rot s m).bestMode, (bestStep tw th tr rot s m).bestScore) =
      bestPair tw th tr rot (s.bestMode, s.bestScore) m := by
  simp only [bestStep, bestPair]
  cases hsc : modeScore tw th tr rot m <;> simp only [hsc] <;> split_ifs <;> simp

theorem foldl_bestStep_proj (tw th tr : Int) (rot : Bool) (modes : List Mode)
    (s : BestState) :
    ((modes.foldl (bestStep tw th tr rot) s).bestMode,
     (modes.foldl (bestStep tw th tr rot) s).bestScore) =
      modes.foldl (bestPair tw th tr rot) (s.bestMode, s.bestScore) := by
  induction modes generalizing s with
  | nil => rfl
  | cons m ms ih =>
    rw [List.foldl_cons, List.foldl_cons, ih, bestStep_proj]

theorem refreshBonus_nonneg (tr : Int) (m : Mode) : 0 ≤ refreshBonus tr m := by
  unfold refreshBonus
  split
  · norm_num
  · exact le_max_left 0 _

theorem refreshBonus_le (tr : Int) (m : Mode) : refreshBonus tr m ≤ 100 := by
  unfold refreshBonus
  split
  · norm_num
  · have h := abs_nonneg (m.freq - tr)
    have : (50 - |m.freq - tr|) ≤ 100 := by omega
    exact max_le (by norm_num) this

theorem modeScore_ge {tw th tr : Int} {rot : Bool} {m : Mode} {s : Int}
    (h : modeScore tw th tr rot m = some s) : 900 ≤ s := by
  have hb := refreshBonus_nonneg tr m
  unfold modeScore at h
  split_ifs at h <;> simp only [Option.some.injEq] at h <;> omega

theorem modeScore_le_1100 {tw th tr : Int} {rot : Bool} {m : Mode} {s : Int}
    (h : modeScore tw th tr rot m = some s) : s ≤ 1100 := by
  have hb := refreshBonus_le tr m
  unfold modeScore at h
  split_ifs at h <;> simp only [Option.some.injEq] at h <;> omega

theorem modeScore_native_le {tw th tr : Int} {rot : Bool} {m : Mode} {s : Int}
    (hne : isExact tw th m = false) (h : modeScore tw th tr rot m = some s) :
    s ≤ 1000 := by
  have hb := refreshBonus_le tr m
  unfold modeScore at h
  rw [hne] at h
  split_ifs at h <;>
    first
      | (simp only [Option.some.injEq] at h; omega)
      | simp_all

theorem modeScore_1100 {tw th tr : Int} {rot : Bool} {m : Mode}
    (h : modeScore tw th tr rot m = some 1100) :
    isExact tw th m = true ∧ m.freq = tr := by
  unfold modeScore at h
  split_ifs at h with h1 h2
  · simp only [Option.some.injEq] at h
    refine ⟨h2, ?_⟩
    unfold refreshBonus at h
    split_ifs at h with h3
    · simpa using h3
    · have h4 := abs_nonneg (m.freq - tr)
      have h5 : max 0 (50 - |m.freq - tr|) ≤ 50 := max_le (by omega) (by omega)
      omega
  · simp only [Option.some.injEq] at h
    have := refreshBonus_le tr m
    omega

/-- Invariant of the best-candidate accumulator after scanning `seen`:
when a best candidate exists it is a matching mode, its score bounds every
matching mode seen, strictly bounds every matching mode strictly before
it, and no candidate means no mode matched. -/
def BestInv (tw th tr : Int) (rot : Bool) (seen : List Mode)
    (p : Option Mode × Int) : Prop :=
  (p.1 = none → p.2 = -1 ∧ ∀ m ∈ seen, modeScore tw th tr rot m = none) ∧
  (∀ b, p.1 = some b → modeScore tw th tr rot b = some p.2 ∧
    ∃ pre post, seen = pre ++ b :: post ∧
      (∀ m ∈ pre, ∀ s, modeScore tw th tr rot m = some s → s < p.2) ∧
      (∀ m ∈ seen, ∀ s, modeScore tw th tr rot m = some s → s ≤ p.2))

theorem bestInv_nil (tw th tr : Int) (rot : Bool) :
    BestInv tw th tr rot [] (none, -1) := by
  constructor
  · intro _
    exact ⟨rfl, by simp⟩
  · intro b hb
    simp at hb

theorem bestInv_step (tw th tr : Int) (rot : Bool) (seen : List Mode)
    (p : Option Mode × Int) (m : Mode) (h : BestInv tw th tr rot seen p) :
    BestInv tw th tr rot (seen ++ [m]) (bestPair tw th tr rot p m) := by
  obtain ⟨hnone, hsome⟩ := h
  unfold bestPair
  cases hsc : modeScore tw th tr rot m with
  | none =>
    refine ⟨fun hp => ?_, fun b hb => ?_⟩
    · obtain ⟨h2, h3⟩ := hnone hp
      refine ⟨h2, ?_⟩
      intro m' hm'
      rcases List.mem_append.mp hm' with hm' | hm'
      · exact h3 m' hm'
      · simp only [List.mem_singleton] at hm'
        subst hm'
        exact hsc
    · obtain ⟨hb1, pre, post, hsplit, hpre, hall⟩ := hsome b hb
      refine ⟨hb1, pre, post ++ [m], by rw [hsplit]; simp, hpre, ?_⟩
      intro m' hm' s hs
      rcases List.mem_append.mp hm' with hm' | hm'
      · exact hall m' hm' s hs
      · simp only [List.mem_singleton] at hm'
        subst hm'
        rw [hsc] at hs
        cases hs
  | some sc =>
    have hsc900 : 900 ≤ sc := modeScore_ge hsc
    show BestInv tw th tr rot (seen ++ [m]) (if sc > p.2 then (some m, sc) else p)
    rcases lt_or_ge p.2 sc with hgt | hge
    · rw [if_pos hgt]
      refine ⟨fun hp => ?_, fun b hb => ?_⟩
      · cases hp
      simp only [Option.some.injEq] at hb
      subst hb
      have hseen_lt : ∀ m' ∈ seen, ∀ s, modeScore tw th tr rot m' = some s → s < sc := by
        intro m' hm' s hs
        cases hp1 : p.1 with
        | none =>
          obtain ⟨_, h3⟩ := hnone hp1
          rw [h3 m' hm'] at hs
          cases hs
        | some b' =>
          obtain ⟨_, _, _, _, _, hall⟩ := hsome b' hp1
          exact lt_of_le_of_lt (hall m' hm' s hs) hgt
      refine ⟨hsc, seen, [], by simp, hseen_lt, ?_⟩
      intro m' hm' s hs
      rcases List.mem_append.mp hm' with hm' | hm'
      · exact le_of_lt (hseen_lt m' hm' s hs)
      · simp only [List.mem_singleton] at hm'
        subst hm'
        rw [hsc] at hs
        cases hs
        exact le_refl _
    · rw [if_neg (not_lt.mpr hge)]
      refine ⟨fun hp => ?_, fun b hb => ?_⟩
      · obtain ⟨h2, _⟩ := hnone hp
        rw [h2] at hge
        omega
      · obtain ⟨hb1, pre, post, hsplit, hpre, hall⟩ := hsome b hb
        refine ⟨hb1, pre, post ++ [m], by rw [hsplit]; simp, hpre, ?_⟩
        intro m' hm' s hs
        rcases List.mem_append.mp hm' with hm' | hm'
        · exact hall m' hm' s hs
        · simp only [List.mem_singleton] at hm'
          subst hm'
          rw [hsc] at hs
          simp only [Option.some.injEq] at hs
          omega

theorem bestInv_foldl_aux (tw th tr : Int) (rot : Bool) (modes : List Mode) :
    ∀ (seen : List Mode) (p : Option Mode × Int), BestInv tw th tr rot seen p →
      BestInv tw th tr rot (seen ++ modes) (modes.foldl (bestPair tw th tr rot) p) := by
  induction modes with
  | nil =>
    intro seen p h
    simpa using h
  | cons m ms ih =>
    intro seen p h
    have h1 := bestInv_step tw th tr rot seen p m h
    have h2 := ih (seen ++ [m]) _ h1
    simpa [List.append_assoc] using h2

theorem bestInv_foldl (tw th tr : Int) (rot : Bool) (modes : List Mode) :
    BestInv tw th tr rot modes (modes.foldl (bestPair tw th tr rot) (none, -1)) := by
  have h := bestInv_foldl_aux tw th tr rot modes [] (none, -1) (bestInv_nil tw th tr rot)
  simpa using h

/-- When some mode matches, the returned mode is a matching mode of
maximal score, the earliest such in enumeration order. -/
theorem best_selection (tw th tr : Int) (rot fallback : Bool) (modes : List Mode)
    (m₀ : Mode) (s₀ : Int) (h₀ : m₀ ∈ modes)
    (hs₀ : modeScore tw th tr rot m₀ = some s₀) :
    ∃ b sb pre post, getBestDisplayMode tw th tr rot fallback modes = some b ∧
      modeScore tw th tr rot b = some sb ∧ modes = pre ++ b :: post ∧
      (∀ m ∈ modes, ∀ s, modeScore tw th tr rot m = some s → s ≤ sb) ∧
      (∀ m ∈ pre, ∀ s, modeScore tw th tr rot m = some s → s < sb) := by
  obtain ⟨hnone, hsome⟩ := bestInv_foldl tw th tr rot modes
  have hproj : ((modes.foldl (bestStep tw th tr rot) {}).bestMode,
      (modes.foldl (bestStep tw th tr rot) {}).bestScore) =
      modes.foldl (bestPair tw th tr rot) (none, -1) :=
    foldl_bestStep_proj tw th tr rot modes {}
  cases hb : (modes.foldl (bestPair tw th tr rot) (none, -1)).1 with
  | none =>
    obtain ⟨_, h3⟩ := hnone hb
    rw [h3 m₀ h₀] at hs₀
    cases hs₀
  | some b =>
    obtain ⟨hb1, pre, post, hsplit, hpre, hall⟩ := hsome b hb
    refine ⟨b, _, pre, post, ?_, hb1, hsplit, hall, hpre⟩
    have hbm : (modes.foldl (bestStep tw th tr rot) {}).bestMode = some b := by
      have h1 := congrArg Prod.fst hproj
      simp only at h1
      rw [h1, hb]
    simp only [getBestDisplayMode, hbm]

/-- C4: an exact match scores 1000 plus the refresh bonus, a native
(non-exact) match 900 plus the bonus, the bonus is 100 on an identical
refresh and max 0 (50 - |difference|) otherwise, and whenever some mode
matches, the returned mode is a matching mode of maximal score, the first
such mode in enumeration order (everything strictly before it scores
strictly less). -/
theorem c4_mode_scoring_and_selection (tw th tr : Int) (rot fallback : Bool)
    (modes : List Mode) :
    (∀ m, isExact tw th m = true →
        modeScore tw th tr rot m = some (1000 + refreshBonus tr m)) ∧
    (∀ m, isExact tw th m = false → isNative tw th rot m = true →
        modeScore tw th tr rot m = some (900 + refreshBonus tr m)) ∧
    (∀ m, (m.freq = tr → refreshBonus tr m = 100) ∧
          (m.freq ≠ tr → refreshBonus tr m = max 0 (50 - |m.freq - tr|))) ∧
    (∀ m₀ s₀, m₀ ∈ modes → modeScore tw th tr rot m₀ = some s₀ →
      ∃ b sb pre post, getBestDisplayMode tw th tr rot fallback modes = some b ∧
        modeScore tw th tr rot b = some sb ∧ modes = pre ++ b :: post ∧
        (∀ m ∈ modes, ∀ s, modeScore tw th tr rot m = some s → s ≤ sb) ∧
        (∀ m ∈ pre, ∀ s, modeScore tw th tr rot m = some s → s < sb)) := by
  refine ⟨?_, ?_, ?_, ?_⟩
  · intro m hm
    simp [modeScore, hm]
  · intro m hne hnat
    simp [modeScore, hne, hnat]
  · intro m
    constructor
    · intro h
      simp [refreshBonus, h]
    · intro h
      simp [refreshBonus, h]
  · intro m₀ s₀ h₀ hs₀
    exact best_selection tw th tr rot fallback modes m₀ s₀ h₀ hs₀

/-- Witness mode list for C4. -/
def modes4 : List Mode :=
  [{ width := 800, height := 600, freq := 60 },
   { width := 1920, height := 1080, freq := 50 },
   { width := 1920, height := 1080, freq := 60 }]

theorem c4_mode_scoring_and_selection_witness :
    ∃ b sb pre post, getBestDisplayMode 1920 1080 60 false true modes4 = some b ∧
      modeScore 1920 1080 60 false b = some sb ∧ modes4 = pre ++ b :: post ∧
      (∀ m ∈ modes4, ∀ s, modeScore 1920 1080 60 false m = some s → s ≤ sb) ∧
      (∀ m ∈ pre, ∀ s, modeScore 1920 1080 60 false m = some s → s < sb) :=
  (c4_mode_scoring_and_selection 1920 1080 60 false true modes4).2.2.2
    { width := 1920, height := 1080, freq := 50 } 1040 (by decide) (by decide)

/-- C5 (amended): with target (1920, 1080, 60), an exact size match with
exact refresh scores 1100 and is returned in preference to an exact size
match whose refresh is off by 50 — which scores 1000, not 1050 — and to
any native-rotated (non-exact) match, which scores at most 1000. -/
theorem c5_target_1920_1080_60 (modes : List Mode) (rot fallback : Bool) (m₀ : Mode)
    (h₀ : m₀ ∈ modes) (hw : m₀.width = 1920) (hh : m₀.height = 1080)
    (hf : m₀.freq = 60) :
    (∃ b, getBestDisplayMode 1920 1080 60 rot fallback modes = some b ∧
       isExact 1920 1080 b = true ∧ b.freq = 60 ∧
       modeScore 1920 1080 60 rot b = some 1100) ∧
    (∀ m, isExact 1920 1080 m = true → |m.freq - 60| = 50 →
       modeScore 1920 1080 60 rot m = some 1000) ∧
    (∀ m s, isExact 1920 1080 m = false →
       modeScore 1920 1080 60 rot m = some s → s ≤ 1000) := by
  have hsc : modeScore 1920 1080 60 rot m₀ = some 1100 := by
    simp [modeScore, isExact, hw, hh, refreshBonus, hf]
  refine ⟨?_, ?_, ?_⟩
  · obtain ⟨b, sb, pre, post, hret, hbs, hsplit, hall, hpre⟩ :=
      best_selection 1920 1080 60 rot fallback modes m₀ 1100 h₀ hsc
    have hub : sb ≤ 1100 := modeScore_le_1100 hbs
    have hlb : 1100 ≤ sb := hall m₀ h₀ 1100 hsc
    have hsb : sb = 1100 := le_antisymm hub hlb
    subst hsb
    obtain ⟨hbex, hbfreq⟩ := modeScore_1100 hbs
    exact ⟨b, hret, hbex, hbfreq, hbs⟩
  · intro m hm hd
    have hne : m.freq ≠ 60 := by
      intro h
      rw [h] at hd
      simp at hd
    simp [modeScore, hm, refreshBonus, hne, hd]
  · intro m s hne h
    exact modeScore_native_le hne h

/-- C5 counterexample: an exact 1920x1080 mode whose refresh is off by 50
(110 Hz against 60 Hz) scores 1000, not the 1050 stated by the claim. -/
theorem c5_counterexample :
    modeScore 1920 1080 60 false { width := 1920, height := 1080, freq := 110 } =
      some 1000 ∧
    |(110 : Int) - 60| = 50 ∧ (1000 : Int) ≠ 1050 := by
  decide

/-- Witness mode list for C5. -/
def modes5 : List Mode :=
  [{ width := 1920, height := 1080, freq := 110 },
   { width := 1080, height := 1920, freq := 60 },
   { width := 1920, height := 1080, freq := 60 }]

theorem c5_target_1920_1080_60_witness :
    ∃ b, getBestDisplayMode 1920 1080 60 true true modes5 = some b ∧
      isExact 1920 1080 b = true ∧ b.freq = 60 ∧
      modeScore 1920 1080 60 true b = some 1100 :=
  (c5_target_1920_1080_60 modes5 true true
    { width := 1920, height := 1080, freq := 60 }
    (by decide) rfl rfl rfl).1

/-! ### Window management (`window_manager.py`) -/

/-- Show-state constant for a minimized window. -/
def SW_SHOWMINIMIZED : Int := 2

/-- Window placement record: the show command and the normal-position
rectangle, the WINDOWPLACEMENT fields the code reads and writes. -/
structure Placement where
  showCmd : Int
  left : Int
  top : Int
  right : Int
  bottom : Int
deriving Repr, DecidableEq

/-- Saved window position (`WindowPosition` dataclass). -/
structure WindowPosition where
  hwnd : Int
  title : String
  process_name : String
  x : Int
  y : Int
  width : Int
  height : Int
  state : Int
  monitor_x : Int
  monitor_y : Int
deriving Repr, DecidableEq

/-- OS window environment: handle validity, the prebuilt
(title, process) lookup table, the full-enumeration fallback search, the
live monitor origins, and the placement read/write oracles. -/
structure WindowEnv where
  isWindow : Int → Bool
  lookup : String → String → Option Int
  findByTitleProcess : String → String → Option Int
  availableMonitors : List (Int × Int)
  getPlacement : Int → Option Placement
  setPlacementOk : Int → Placement → Bool

/-- Outcome of a restore or move call: the boolean the Python function
returns plus a ghost trace of the SetWindowPlacement calls issued. -/
structure RestoreOutcome where
  restored : Bool
  setCalls : List (Int × Placement) := []
deriving Repr, DecidableEq

/-- Shallow embedding of `restore_window_position` (window_manager.py
540-587): re-validate the handle (falling back to the lookup table or the
full scan), skip when the saved monitor origin is not present, then
rewrite the placement to the saved rectangle and state. -/
def restoreWindowPosition (env : WindowEnv) (saved : WindowPosition)
    (availOpt : Option (List (Int × Int))) (useLookup : Bool) : RestoreOutcome :=
  let hwnd0 :=
    if env.isWindow saved.hwnd then some saved.hwnd
    else
      let h := if useLookup then (env.lookup saved.title saved.process_name).getD 0
               else (env.findByTitleProcess saved.title saved.process_name).getD 0
      if h == 0 then none else some h
  match hwnd0 with
  | none => { restored := false }
  | some hwnd =>
    let avail := availOpt.getD env.availableMonitors
    if !(avail.contains (saved.monitor_x, saved.monitor_y)) then { restored := false }
    else
      match env.getPlacement hwnd with
      | none => { restored := false }
      | some wp =>
        let wp2 :=
          { wp with showCmd := saved.state, left := saved.x, top := saved.y,
                    right := saved.x + saved.width,
                    bottom := saved.y + saved.height }
        { restored := env.setPlacementOk hwnd wp2, setCalls := [(hwnd, wp2)] }

/-- One iteration of the `restore_window_positions` loop. -/
def restoreStep (env : WindowEnv) (skipMinimized : Bool)
    (acc : Nat × List (Int × Placement)) (saved : WindowPosition) :
    Nat × List (Int × Placement) :=
  if skipMinimized && (saved.state == SW_SHOWMINIMIZED) then acc
  else
    let o := restoreWindowPosition env saved (some env.availableMonitors) true
    (acc.1 + (if o.restored then 1 else 0), acc.2 ++ o.setCalls)

/-- Shallow embedding of `restore_window_positions` (window_manager.py
590-611): prefetched monitor set and lookup table, optional minimized
skip; returns the restored count and the accumulated placement writes. -/
def restoreWindowPositions (env : WindowEnv) (savedList : List WindowPosition)
    (skipMinimized : Bool) : Nat × List (Int × Placement) :=
  savedList.foldl (restoreStep env skipMinimized) (0, [])

/-- Shallow embedding of the window-restoration loop at the end of
`ProfileManager.apply_profile` (profile_manager.py 171-176): each cached
position whose monitor origin was newly enabled is restored via
`restore_window_position` with no prefetched monitor set, no lookup table
and no minimized-state check; the placement writes are collected. -/
def applyProfileRestoreCalls (env : WindowEnv) (cached : List WindowPosition)
    (newlyEnabled : List (Int × Int)) : List (Int × Placement) :=
  cached.foldl
    (fun acc pos =>
      if newlyEnabled.contains (pos.monitor_x, pos.monitor_y) then
        acc ++ (restoreWindowPosition env pos none false).setCalls
      else acc)
    []

theorem restore_monitor_missing (env : WindowEnv) (saved : WindowPosition)
    (availOpt : Option (List (Int × Int))) (useLookup : Bool)
    (hmiss : (availOpt.getD env.availableMonitors).contains
        (saved.monitor_x, saved.monitor_y) = false) :
    restoreWindowPosition env saved availOpt useLookup = { restored := false } := by
  have hm : (saved.monitor_x, saved.monitor_y) ∉ availOpt.getD env.availableMonitors := by
    simpa using hmiss
  unfold restoreWindowPosition
  split
  case isTrue hw => simp [hm]
  case isFalse hw =>
    split
    case isTrue h0 =>
      cases h1 : ((env.lookup saved.title saved.process_name).getD 0 == 0) <;>
        simp [h1, hm]
    case isFalse h0 =>
      cases h1 : ((env.findByTitleProcess saved.title saved.process_name).getD 0 == 0) <;>
        simp [h1, hm]

theorem restoreFold_filter (env : WindowEnv) (l : List WindowPosition)
    (acc : Nat × List (Int × Placement)) :
    l.foldl (restoreStep env true) acc =
      (l.filter fun s => !(s.state == SW_SHOWMINIMIZED)).foldl
        (restoreStep env true) acc := by
  induction l generalizing acc with
  | nil => rfl
  | cons s l ih =>
    rw [List.foldl_cons, List.filter_cons]
    cases hst : s.state == SW_SHOWMINIMIZED
    · rw [if_pos (by simp [hst]), List.foldl_cons]
      have hstep : restoreStep env true acc s = restoreStep env true acc s := rfl
      rw [ih]
    · have hskip : restoreStep env true acc s = acc := by
        simp [restoreStep, hst]
      rw [hskip, if_neg (by simp [hst]), ih]

/-- C6 (amended): restoring a saved window whose monitor origin is absent
is skipped in every calling mode — returned as not restored (false) with
no placement write, never an error; and the batch restore
(`restore_window_positions`, minimized skip on by default) never counts or
repositions a minimized entry: dropping minimized entries leaves its
outcome unchanged. -/
theorem c6_restore_skips (env : WindowEnv) (saved : WindowPosition)
    (availOpt : Option (List (Int × Int))) (useLookup : Bool)
    (hmiss : (availOpt.getD env.availableMonitors).contains
        (saved.monitor_x, saved.monitor_y) = false) :
    ((restoreWindowPosition env saved availOpt useLookup).restored = false ∧
     (restoreWindowPosition env saved availOpt useLookup).setCalls = []) ∧
    (∀ l, restoreWindowPositions env l true =
       restoreWindowPositions env
         (l.filter fun s => !(s.state == SW_SHOWMINIMIZED)) true) := by
  refine ⟨?_, fun l => ?_⟩
  · rw [restore_monitor_missing env saved availOpt useLookup hmiss]
    exact ⟨rfl, rfl⟩
  · unfold restoreWindowPositions
    exact restoreFold_filter env l (0, [])

/-- C6 counterexample environment: window 42 is valid, its placement is
readable, placement writes succeed, both monitors are present. -/
def envW6 : WindowEnv :=
  { isWindow := fun h => h == 42, lookup := fun _ _ => none,
    findByTitleProcess := fun _ _ => none,
    availableMonitors := [(0, 0), (1920, 0)],
    getPlacement := fun _ =>
      some { showCmd := 2, left := 5, top := 5, right := 105, bottom := 105 },
    setPlacementOk := fun _ _ => true }

/-- C6 counterexample cached entry: minimized, on the monitor at
(1920, 0). -/
def posW6 : WindowPosition :=
  { hwnd := 42, title := "Editor", process_name := "editor.exe", x := 2000, y := 10,
    width := 400, height := 300, state := 2, monitor_x := 1920, monitor_y := 0 }

/-- C6 counterexample: the profile-apply restoration loop repositions a
cached window whose recorded show-state is minimized — it issues a
placement write for it. -/
theorem c6_counterexample :
    posW6.state = SW_SHOWMINIMIZED ∧
    applyProfileRestoreCalls envW6 [posW6] [(1920, 0)] =
      [(42, { showCmd := 2, left := 2000, top := 10, right := 2400, bottom := 310 })] := by
  decide

/-- C6 witness entry: not minimized, saved on an absent monitor. -/
def posW6b : WindowPosition :=
  { hwnd := 42, title := "Editor", process_name := "editor.exe", x := 2000, y := 10,
    width := 400, height := 300, state := 1, monitor_x := 99, monitor_y := 99 }

theorem c6_restore_skips_witness :
    (restoreWindowPosition envW6 posW6b none false).restored = false ∧
    (restoreWindowPosition envW6 posW6b none false).setCalls = [] ∧
    restoreWindowPositions envW6 [posW6] true = (0, []) := by
  refine ⟨(c6_restore_skips envW6 posW6b none false (by decide)).1.1,
          (c6_restore_skips envW6 posW6b none false (by decide)).1.2, ?_⟩
  rw [(c6_restore_skips envW6 posW6b none false (by decide)).2 [posW6]]
  decide

/-! ### Evacuation to the primary monitor (`_move_window_to_primary`) -/

/-- Destination placement computed by `_move_window_to_primary`
(window_manager.py 408-437): per-axis stagger of primary origin + 50 +
(hwnd mod 10) * 30, clamped to 10 pixels inside the far edge when the
window would overflow, preserving the window size and show state. -/
def movedPlacement (hwnd : Int) (wp : Placement) (px py pw ph : Int) : Placement :=
  let width := wp.right - wp.left
  let height := wp.bottom - wp.top
  let nx0 := px + 50 + hwnd % 10 * 30
  let ny0 := py + 50 + hwnd % 10 * 30
  let nx := if nx0 + width > px + pw then px + pw - width - 10 else nx0
  let ny := if ny0 + height > py + ph then py + ph - height - 10 else ny0
  { wp with left := nx, top := ny, right := nx + width, bottom := ny + height }

/-- Shallow embedding of `_move_window_to_primary`: read the placement,
rewrite its normal-position rectangle to the staggered/clamped
destination, and stage the write. -/
def moveWindowToPrimary (env : WindowEnv) (hwnd : Int)
    (px py pw ph : Int) : RestoreOutcome :=
  match env.getPlacement hwnd with
  | none => { restored := false }
  | some wp =>
    let wp2 := movedPlacement hwnd wp px py pw ph
    { restored := env.setPlacementOk hwnd wp2, setCalls := [(hwnd, wp2)] }

theorem movedPlacement_left (hwnd : Int) (wp : Placement) (px py pw ph : Int) :
    (movedPlacement hwnd wp px py pw ph).left =
      if px + 50 + hwnd % 10 * 30 + (wp.right - wp.left) > px + pw
      then px + pw - (wp.right - wp.left) - 10
      else px + 50 + hwnd % 10 * 30 := by
  simp only [movedPlacement]

theorem movedPlacement_top (hwnd : Int) (wp : Placement) (px py pw ph : Int) :
    (movedPlacement hwnd wp px py pw ph).top =
      if py + 50 + hwnd % 10 * 30 + (wp.bottom - wp.top) > py + ph
      then py + ph - (wp.bottom - wp.top) - 10
      else py + 50 + hwnd % 10 * 30 := by
  simp only [movedPlacement]

theorem movedPlacement_right (hwnd : Int) (wp : Placement) (px py pw ph : Int) :
    (movedPlacement hwnd wp px py pw ph).right =
      (movedPlacement hwnd wp px py pw ph).left + (wp.right - wp.left) := by
  simp only [movedPlacement]

theorem movedPlacement_bottom (hwnd : Int) (wp : Placement) (px py pw ph : Int) :
    (movedPlacement hwnd wp px py pw ph).bottom =
      (movedPlacement hwnd wp px py pw ph).top + (wp.bottom - wp.top) := by
  simp only [movedPlacement]

/-- C7 (amended): when the placement read succeeds, the relocation stages
exactly the deterministic destination rectangle: offset primary origin +
50 + (hwnd mod 10) * 30 on each axis when the window fits there, clamped
to 10 pixels inside the far edge otherwise, preserving the window size;
and provided the window is at most (pw - 10) x (ph - 10), the resulting
rectangle lies fully within the primary work area.  (A window larger than
that protrudes: see the counterexample.) -/
theorem c7_move_to_primary (env : WindowEnv) (hwnd : Int) (px py pw ph : Int)
    (wp : Placement) (hget : env.getPlacement hwnd = some wp) :
    (moveWindowToPrimary env hwnd px py pw ph).setCalls =
      [(hwnd, movedPlacement hwnd wp px py pw ph)] ∧
    ((movedPlacement hwnd wp px py pw ph).right -
        (movedPlacement hwnd wp px py pw ph).left = wp.right - wp.left ∧
     (movedPlacement hwnd wp px py pw ph).bottom -
        (movedPlacement hwnd wp px py pw ph).top = wp.bottom - wp.top) ∧
    (px + 50 + hwnd % 10 * 30 + (wp.right - wp.left) ≤ px + pw →
       (movedPlacement hwnd wp px py pw ph).left = px + 50 + hwnd % 10 * 30) ∧
    (wp.right - wp.left ≤ pw - 10 → wp.bottom - wp.top ≤ ph - 10 →
       px ≤ (movedPlacement hwnd wp px py pw ph).left ∧
       (movedPlacement hwnd wp px py pw ph).right ≤ px + pw ∧
       py ≤ (movedPlacement hwnd wp px py pw ph).top ∧
       (movedPlacement hwnd wp px py pw ph).bottom ≤ py + ph) := by
  have hmod : 0 ≤ hwnd % 10 := Int.emod_nonneg hwnd (by norm_num)
  refine ⟨by simp [moveWindowToPrimary, hget], ⟨?_, ?_⟩, ?_, fun hW hH => ?_⟩
  · rw [movedPlacement_right]
    ring
  · rw [movedPlacement_bottom]
    ring
  · intro hfit
    rw [movedPlacement_left, if_neg (by omega)]
  · rw [movedPlacement_right, movedPlacement_bottom, movedPlacement_left,
      movedPlacement_top]
    split_ifs with hx hy hy <;> omega

/-- C7 counterexample: a 200-wide window evacuated onto a 100-wide work
area at origin 0 is clamped to left = -110, protruding past the left edge
of the work area: the rectangle is not fully within it. -/
theorem c7_counterexample :
    (movedPlacement 0 { showCmd := 1, left := 0, top := 0, right := 200, bottom := 50 }
        0 0 100 100).left = -110 ∧
    (movedPlacement 0 { showCmd := 1, left := 0, top := 0, right := 200, bottom := 50 }
        0 0 100 100).left < 0 := by
  decide

/-- Witness environment for C7: the placement of every window reads as a
100x80 rectangle. -/
def envW7 : WindowEnv :=
  { isWindow := fun _ => true, lookup := fun _ _ => none,
    findByTitleProcess := fun _ _ => none, availableMonitors := [(0, 0)],
    getPlacement := fun _ =>
      some { showCmd := 1, left := 10, top := 10, right := 110, bottom := 90 },
    setPlacementOk := fun _ _ => true }

/-- Witness placement for C7. -/
def wpW7 : Placement := { showCmd := 1, left := 10, top := 10, right := 110, bottom := 90 }

theorem c7_move_to_primary_witness :
    (moveWindowToPrimary envW7 7 0 0 1920 1080).setCalls =
      [(7, movedPlacement 7 wpW7 0 0 1920 1080)] ∧
    (0 ≤ (movedPlacement 7 wpW7 0 0 1920 1080).left ∧
     (movedPlacement 7 wpW7 0 0 1920 1080).right ≤ 0 + 1920 ∧
     0 ≤ (movedPlacement 7 wpW7 0 0 1920 1080).top ∧
     (movedPlacement 7 wpW7 0 0 1920 1080).bottom ≤ 0 + 1080) :=
  ⟨(c7_move_to_primary envW7 7 0 0 1920 1080 wpW7 rfl).1,
   (c7_move_to_primary envW7 7 0 0 1920 1080 wpW7 rfl).2.2.2 (by decide) (by decide)⟩

/-! ### Window snapshots (`get_window_positions`) -/

/-- Titles excluded from snapshots (window_manager.py `SKIP_TITLES`). -/
def SKIP_TITLES : List String :=
  ["Program Manager", "Windows Input Experience",
   "Microsoft Text Input Application", "Settings"]

/-- Process names excluded from snapshots (`SKIP_PROCESSES`). -/
def SKIP_PROCESSES : List String :=
  ["TextInputHost.exe", "ShellExperienceHost.exe", "SearchHost.exe",
   "StartMenuExperienceHost.exe"]

/-- Monitor rectangle as enumerated by `_get_monitor_rects`. -/
structure MRect where
  left : Int
  top : Int
  right : Int
  bottom : Int
deriving Repr, DecidableEq

/-- First monitor rectangle containing the point, else (0, 0)
(`_find_monitor_for_point`). -/
def findMonitorForPoint (cx cy : Int) (rects : List MRect) : Int × Int :=
  match rects.find? (fun r =>
      decide (r.left ≤ cx) && decide (cx < r.right) &&
      decide (r.top ≤ cy) && decide (cy < r.bottom)) with
  | some r => (r.left, r.top)
  | none => (0, 0)

/-- A window as yielded by `_enum_all_visible_hwnds`, with its per-window
OS query results (title, owning pid, placement read). -/
structure EnumWindow where
  hwnd : Int
  title : String
  pid : Int
  placement : Option Placement
deriving Repr, DecidableEq

/-- Snapshot environment: the enumerated windows, pid-to-process-name
resolution, the prefetched monitor rectangles, and the
`MonitorFromWindow` fallback. -/
structure SnapshotEnv where
  windows : List EnumWindow
  pidName : Int → String
  monitorRects : List MRect
  monitorFromWindow : Int → Int × Int

/-- Shallow embedding of `get_window_positions` (window_manager.py
289-357): filter by title and process denylists, read the placement,
resolve the monitor by midpoint containment with the (0, 0) fallback to
`MonitorFromWindow` when the first rectangle shows (0, 0) is not a real
origin. -/
def getWindowPositions (env : SnapshotEnv) : List WindowPosition :=
  env.windows.filterMap fun w =>
    if w.title = "" then none
    else if SKIP_TITLES.contains w.title then none
    else
      let pname := env.pidName w.pid
      if SKIP_PROCESSES.contains pname then none
      else
        match w.placement with
        | none => none
        | some wp =>
          let cx := (wp.left + wp.right).fdiv 2
          let cy := (wp.top + wp.bottom).fdiv 2
          let mon := findMonitorForPoint cx cy env.monitorRects
          let mon2 :=
            if mon.1 = 0 ∧ mon.2 = 0 ∧ env.monitorRects ≠ [] then
              match env.monitorRects with
              | first :: _ =>
                if ¬(first.left = 0 ∧ first.top = 0) then env.monitorFromWindow w.hwnd
                else mon
              | [] => mon
            else mon
          some { hwnd := w.hwnd, title := w.title, process_name := pname,
                 x := wp.left, y := wp.top, width := wp.right - wp.left,
                 height := wp.bottom - wp.top, state := wp.showCmd,
                 monitor_x := mon2.1, monitor_y := mon2.2 }

/-- C10: every snapshot entry produced by `get_window_positions` carries a
non-empty title. -/
theorem c10_titles_nonempty (env : SnapshotEnv) (p : WindowPosition)
    (hp : p ∈ getWindowPositions env) : p.title ≠ "" := by
  unfold getWindowPositions at hp
  rcases List.mem_filterMap.mp hp with ⟨w, hw, hcon⟩
  split_ifs at hcon with h1 h2
  cases hpl : w.placement with
  | none =>
    rw [hpl] at hcon
    simp at hcon
  | some wp =>
    rw [hpl] at hcon
    simp at hcon
    rw [← hcon.2]
    simpa using h1

/-- Witness environment for C10: one titled window on one monitor. -/
def envW10 : SnapshotEnv :=
  { windows := [{ hwnd := 5, title := "Notepad", pid := 77,
                  placement := some { showCmd := 1, left := 10, top := 20,
                                      right := 410, bottom := 320 } }],
    pidName := fun _ => "notepad.exe",
    monitorRects := [{ left := 0, top := 0, right := 1920, bottom := 1080 }],
    monitorFromWindow := fun _ => (0, 0) }

/-- Snapshot entry the witness environment produces. -/
def pW10 : WindowPosition :=
  { hwnd := 5, title := "Notepad", process_name := "notepad.exe", x := 10, y := 20,
    width := 400, height := 300, state := 1, monitor_x := 0, monitor_y := 0 }

theorem c10_titles_nonempty_witness :
    pW10 ∈ getWindowPositions envW10 ∧ pW10.title ≠ "" :=
  ⟨by decide, c10_titles_nonempty envW10 pW10 (by decide)⟩

/-! ### Persistence (`ProfileManager.load_profiles`,
`load_positions_cache`) -/

/-- Outcome of opening-and-parsing a persisted file, distinguished by the
Python exception raised: success, an I/O error from `open`/read
(`OSError`, e.g. an unreadable file), a JSON syntax error
(`json.JSONDecodeError`), a missing key (`KeyError`), or a record-shape
mismatch raised inside `from_dict` (`TypeError`). -/
inductive ReadOutcome (α : Type) where
  | ok (val : α)
  | ioError
  | jsonDecodeError
  | keyError
  | typeError
deriving Repr, DecidableEq

/-- Python exception escaping a loader to its caller. -/
inductive PyError where
  | ioError
  | typeError
deriving Repr, DecidableEq

/-- A stored profile: its name and monitor list. -/
structure Profile where
  name : String
  monitors : List MonitorInfo
deriving Repr, DecidableEq

/-- Shallow embedding of `ProfileManager.load_profiles` (profile_manager.py
59-71): an absent file keeps the empty initial collection; the `except`
clause catches exactly `(json.JSONDecodeError, KeyError)`, so those
degrade to an empty collection while `OSError` (unreadable file) and
`TypeError` (record-shape mismatch in `from_dict`) propagate. -/
def load_profiles (fileExists : Bool)
    (outcome : ReadOutcome (List (String × Profile))) :
    Except PyError (List (String × Profile)) :=
  if !fileExists then .ok []
  else
    match outcome with
    | .ok d => .ok d
    | .jsonDecodeError => .ok []
    | .keyError => .ok []
    | .ioError => .error .ioError
    | .typeError => .error .typeError

/-- Shallow embedding of `load_positions_cache` (window_manager.py
390-400): the bare `except Exception` catches every failure, so every
non-ok outcome (and an absent file) degrades to the empty list. -/
def load_positions_cache (fileExists : Bool)
    (outcome : ReadOutcome (List WindowPosition)) :
    Except PyError (List WindowPosition) :=
  if !fileExists then .ok []
  else
    match outcome with
    | .ok d => .ok d
    | .ioError => .ok []
    | .jsonDecodeError => .ok []
    | .keyError => .ok []
    | .typeError => .ok []

/-- C8 (amended): the window-position cache loader never propagates any
error — every outcome yields a value, and every failure outcome yields the
empty list; the profiles loader degrades to an empty collection on the
parse errors its except clause catches (malformed JSON, missing key) and
on an absent file, but an unreadable file (I/O error) or a record-shape
mismatch propagates an exception. -/
theorem c8_load_degradation :
    (∀ (fe : Bool) (o : ReadOutcome (List WindowPosition)),
       ∃ v, load_positions_cache fe o = .ok v) ∧
    (∀ (fe : Bool) (o : ReadOutcome (List WindowPosition)),
       (∀ d, o ≠ .ok d) → load_positions_cache fe o = .ok []) ∧
    (load_profiles true .jsonDecodeError = .ok [] ∧
     load_profiles true .keyError = .ok [] ∧
     load_profiles false .ioError = .ok []) ∧
    (load_profiles true .ioError = .error .ioError ∧
     load_profiles true .typeError = .error .typeError) := by
  refine ⟨fun fe o => ?_, fun fe o h => ?_, ⟨rfl, rfl, rfl⟩, rfl, rfl⟩
  · cases fe <;> cases o <;> exact ⟨_, rfl⟩
  · cases fe <;> cases o <;> first | rfl | exact absurd rfl (h _)

/-- C8 counterexample: an unreadable profiles file (I/O error on open)
propagates the error to the caller instead of yielding an empty
collection. -/
theorem c8_counterexample :
    load_profiles true (ReadOutcome.ioError) = Except.error PyError.ioError ∧
    ¬∃ v, load_profiles true
        (ReadOutcome.ioError : ReadOutcome (List (String × Profile))) =
          Except.ok v := by
  refine ⟨rfl, ?_⟩
  rintro ⟨v, hv⟩
  cases hv

end DisplaySnap
